import Mathlib

/-!
Shallow embedding of `src/app.py` (mysugr-improved).

The embedded parts are the ones the specification's claims are about:
* the Dashboard tab's CSV ingestion (header normalization, datetime
  resolution, glucose-chart gating, insulin column collection and the
  row-level series that is handed to the charting calls),
* the Insulin Recommendation tab's dose arithmetic
  (`carb_insulin`, `correction_insulin`, `total_dose`),
* the user-store operation `save_user`.

Python numbers are modelled as `ℚ` (the dose arithmetic is exact decimal
arithmetic at every input the claims mention, so no floating-point
subtlety is involved).  `pd.to_datetime(cell, errors="coerce")` is
modelled as an abstract cell parser `String → Option Int` (a timestamp is
abstracted to an integer; `none` models `NaT`); the ingestion pipeline is
parametric in that parser, and a small concrete parser instantiates it in
closed statements.
-/

/-- `needle` occurs as a contiguous run inside `hay`. -/
def isSubList (needle : List Char) : List Char → Bool
  | [] => needle.isEmpty
  | c :: rest => needle.isPrefixOf (c :: rest) || isSubList needle rest

/-- Python's substring containment `needle in hay` on strings,
as used by `"insulin" in col` in the dashboard tab. -/
def containsSub (hay needle : String) : Bool :=
  isSubList needle.toList hay.toList

/-- Header normalization of the dashboard tab:
`df.columns.str.strip().str.lower()` — trim surrounding whitespace, then
lowercase.  (The headers in play are ASCII, where `Char.toLower` agrees
with Python's `str.lower`.) -/
def normalizeHeader (s : String) : String :=
  String.mk (((s.toList.dropWhile Char.isWhitespace).reverse.dropWhile
      Char.isWhitespace).reverse.map Char.toLower)

/-- How the Timestamp role got resolved: from the `(date, time)` pair of
columns, or from a single `datetime` column. -/
inductive DtRes
  | pair
  | single
deriving DecidableEq, Repr

/-- The datetime resolution of the dashboard tab (`src/app.py` lines
112–118), applied to the normalized column names:

```python
if "date" in df.columns and "time" in df.columns:
    df["datetime"] = pd.to_datetime(df["date"] + " " + df["time"], ...)
elif "datetime" in df.columns:
    df["datetime"] = pd.to_datetime(df["datetime"], ...)
else:
    st.error("❌ No 'datetime' column found."); st.stop()
```

`none` models the error-and-stop branch. -/
def resolveDatetime (cols : List String) : Option DtRes :=
  if cols.contains "date" && cols.contains "time" then some DtRes.pair
  else if cols.contains "datetime" then some DtRes.single
  else none

/-- The only column name the dashboard tab accepts for the glucose chart
(`src/app.py` line 123). -/
def glucose_col : String := "blood sugar measurement (mg/dl)"

/-- `insulin_cols = [col for col in df.columns if "insulin" in col]`
(`src/app.py` line 127). -/
def insulin_cols (cols : List String) : List String :=
  cols.filter (fun col => containsSub col "insulin")

/-- Outcome of the dashboard ingestion: either the hard
"No 'datetime' column found" error (which stops the tab), or success,
recording how the timestamp resolved, whether the glucose chart is
rendered, and which insulin columns get charts. -/
inductive DashOutcome
  | datetimeError
  | ok (dt : DtRes) (glucoseChart : Bool) (insulinCharts : List String)
deriving DecidableEq, Repr

/-- The dashboard tab's ingestion control flow (`src/app.py` lines
107–131) as a function of the raw header list: normalize the headers,
resolve the datetime source (error-and-stop if none), then proceed —
the glucose chart is drawn exactly when the normalized header
`glucose_col` is present, and every normalized header containing
`"insulin"` gets its own chart.  Nothing else gates success. -/
def dashboardIngest (headers : List String) : DashOutcome :=
  let cols := headers.map normalizeHeader
  match resolveDatetime cols with
  | none => DashOutcome.datetimeError
  | some dt => DashOutcome.ok dt (cols.contains glucose_col) (insulin_cols cols)

/-- One raw CSV row, restricted to the cells the dashboard touches.
`tsText` is the text handed to `pd.to_datetime` for this row: the
`datetime` cell when a single column resolved, or
`date + " " + time` when the role was derived from the pair
(the code concatenates the two cells before parsing).
`glucoseCell` is the raw glucose cell. -/
structure RawRow where
  tsText : String
  glucoseCell : String
deriving DecidableEq, Repr

/-- One entry of the series the dashboard hands to the charting calls:
the parse result of the timestamp text (`none` models `NaT`, the result
of `errors="coerce"`), and the glucose cell, which the code never parses
or validates — it is passed through verbatim. -/
structure Reading where
  timestamp : Option Int
  glucoseCell : String
deriving DecidableEq, Repr

/-- The row-level effect of the dashboard ingestion (`src/app.py` lines
109–125): each row's timestamp text is parsed with `errors="coerce"`
(failures become `none`/`NaT`), and every row is kept in its original
position — the code contains no sort and no row filter. -/
def buildSeries (parseTs : String → Option Int) (rows : List RawRow) :
    List Reading :=
  rows.map (fun r => ⟨parseTs r.tsText, r.glucoseCell⟩)

/-- Concrete stand-in for `pd.to_datetime` used in closed statements:
a non-empty all-digit string parses to its value, anything else fails
(models an unparseable date).  `buildSeries` is parametric in the parser;
the claims settled with this instance do not depend on which concrete
parser is plugged in. -/
def parseDigits (s : String) : Option Int :=
  let cs := s.toList
  if !cs.isEmpty && cs.all Char.isDigit then
    some (Int.ofNat (cs.foldl (fun acc c => 10 * acc + (c.toNat - 48)) 0))
  else none

/-- Order test on two (possibly missing) timestamps: `NaT` entries
constrain nothing; two parsed timestamps must be in weak order. -/
def tsLeB : Option Int → Option Int → Bool
  | some x, some y => decide (x ≤ y)
  | _, _ => true

/-- The spec's sortedness invariant on a series:
every adjacent pair of timestamps is non-decreasing. -/
def seriesSortedByTs (s : List Reading) : Prop :=
  List.Chain' (fun a b => tsLeB a.timestamp b.timestamp = true) s

/-- The five-row input of the spec's end-to-end scenario
"CSV with 5 rows where 2 have non-numeric glucose cells":
all timestamps parse, rows 2 and 4 carry non-numeric glucose cells. -/
def fiveRows : List RawRow :=
  [⟨"1", "90"⟩, ⟨"2", "abc"⟩, ⟨"3", "110"⟩, ⟨"4", "xyz"⟩, ⟨"5", "120"⟩]

/-- `carb_insulin = carbs / carb_ratio if carb_ratio else 0`
(`src/app.py` line 168).  Python truthiness: any nonzero ratio divides. -/
def carb_insulin (carbs carb_ratio : ℚ) : ℚ :=
  if carb_ratio ≠ 0 then carbs / carb_ratio else 0

/-- `correction_insulin = max((glucose - target_glucose) /
correction_factor, 0) if correction_factor else 0`
(`src/app.py` line 169). -/
def correction_insulin (glucose target_glucose correction_factor : ℚ) : ℚ :=
  if correction_factor ≠ 0 then
    max ((glucose - target_glucose) / correction_factor) 0
  else 0

/-- Python's `round(x, 1)`: round `10 * x` to the nearest integer and
divide by 10.  (Python rounds exact halves to even; `round` here rounds
exact halves up.  The two agree everywhere off exact `.05` ties, and
every statement below about `round1` is tie-independent or at a
non-tie point.) -/
def round1 (x : ℚ) : ℚ :=
  ((round (10 * x) : ℤ) : ℚ) / 10

/-- `total_dose = round(carb_insulin + correction_insulin, 1)`
(`src/app.py` line 170). -/
def total_dose (carbs carb_ratio glucose target_glucose correction_factor : ℚ) :
    ℚ :=
  round1 (carb_insulin carbs carb_ratio +
    correction_insulin glucose target_glucose correction_factor)

/-- `save_user` (`src/app.py` lines 27–33) over the user store modelled
as the list of `(username, password)` rows of `users.csv`: if the
username is already present return `False` and leave the store alone
(the early return happens before any write); otherwise append the new
row and return `True`.  The returned pair is (result, store after the
call). -/
def save_user (username password : String) (users : List (String × String)) :
    Bool × List (String × String) :=
  if (users.map Prod.fst).contains username then (false, users)
  else (true, users ++ [(username, password)])

/-! ## Helper lemmas -/

lemma round1_dist_le (x : ℚ) : |round1 x - x| ≤ 1 / 20 := by
  unfold round1
  have h := abs_sub_round (10 * x)
  have e : ((round (10 * x) : ℤ) : ℚ) / 10 - x =
      -((10 * x - (round (10 * x) : ℤ)) / 10) := by ring
  rw [e, abs_neg, abs_div, abs_of_pos (by norm_num : (0 : ℚ) < 10)]
  linarith

/-! ## C1 — missing glucose column -/

/-- Claim C1, counterexample: a header list with a resolvable datetime
column but no glucose-like column at all ingests successfully (no error
of any kind, in particular no `UnresolvedColumns`); the dashboard simply
omits the glucose chart.  The claim says ingestion must fail hard. -/
theorem ingest_without_glucose_proceeds :
    dashboardIngest ["Datetime", "Pulse"] =
      DashOutcome.ok DtRes.single false [] := by decide

/-- Claim C1, amended: an unresolved glucose column is never fatal.
Whenever the datetime resolution succeeds, ingestion succeeds, and the
glucose chart is rendered exactly when the normalized header
`"blood sugar measurement (mg/dl)"` is present — a missing glucose
column is silently tolerated.  Only a failed datetime resolution stops
the dashboard. -/
theorem missing_glucose_not_fatal (headers : List String) (dt : DtRes)
    (h : resolveDatetime (headers.map normalizeHeader) = some dt) :
    dashboardIngest headers =
      DashOutcome.ok dt ((headers.map normalizeHeader).contains glucose_col)
        (insulin_cols (headers.map normalizeHeader)) := by
  simp [dashboardIngest, h]

/-- Claim C1, witness for the amended theorem at a concrete header
list with no glucose column. -/
theorem missing_glucose_not_fatal_witness :
    dashboardIngest ["Datetime"] = DashOutcome.ok DtRes.single false [] :=
  (missing_glucose_not_fatal ["Datetime"] DtRes.single (by decide)).trans
    (by decide)

/-! ## C2 — series ordering -/

/-- Claim C2, counterexample: two rows whose timestamps arrive in
decreasing order are kept in that (unsorted) order — the ingestion
applies no sort, so the produced series violates
`series[i].timestamp ≤ series[i+1].timestamp` at `i = 0`. -/
theorem series_unsorted_cex :
    ¬ seriesSortedByTs (buildSeries parseDigits [⟨"2", "90"⟩, ⟨"1", "100"⟩]) := by
  have h : buildSeries parseDigits [⟨"2", "90"⟩, ⟨"1", "100"⟩] =
      [⟨some 2, "90"⟩, ⟨some 1, "100"⟩] := by decide
  rw [seriesSortedByTs, h]
  simp [List.chain'_cons, tsLeB]

/-- Claim C2, amended: the series preserves the original row order
exactly (the sequence of timestamps is the sequence of per-row parse
results, in file order, and no row is reordered, added or removed), so
the output is sorted only when the input rows already were — no sort,
stable or otherwise, is applied. -/
theorem series_preserves_input_order (p : String → Option Int)
    (rows : List RawRow) :
    (buildSeries p rows).map Reading.timestamp =
      rows.map (fun r => p r.tsText) ∧
    (buildSeries p rows).length = rows.length := by
  constructor
  · simp [buildSeries, List.map_map, Function.comp]
  · simp [buildSeries]

/-! ## C3 — invalid rows are not dropped -/

/-- Claim C3, counterexample: the spec's scenario "CSV with 5 rows where
2 have non-numeric glucose cells" yields a series of 5 readings, not 3 —
glucose cells are never parsed, so no row is dropped for a bad glucose
value; and a row whose timestamp text fails to parse is also kept, with
a `NaT` timestamp, rather than being excluded. -/
theorem rows_never_dropped_cex :
    (buildSeries parseDigits fiveRows).length = 5 ∧
    (buildSeries parseDigits fiveRows).length ≠ 3 ∧
    buildSeries parseDigits [⟨"notadate", "90"⟩] = [⟨none, "90"⟩] := by
  refine ⟨by decide, by decide, by decide⟩

/-- Claim C3, amended: no row is ever dropped — the series has exactly
one reading per input row, the `i`-th reading coming from the `i`-th
row, with a failed timestamp parse recorded as a `none` (`NaT`)
timestamp and the glucose cell passed through unvalidated.  (The claim's
no-abort half is true: one bad row never aborts the rest; its drop half
is false.) -/
theorem series_keeps_every_row (p : String → Option Int)
    (rows : List RawRow) (i : Nat) (h : i < rows.length) :
    (buildSeries p rows).length = rows.length ∧
    (buildSeries p rows).get ⟨i, by simpa [buildSeries] using h⟩ =
      ⟨p (rows.get ⟨i, h⟩).tsText, (rows.get ⟨i, h⟩).glucoseCell⟩ := by
  refine ⟨by simp [buildSeries], ?_⟩
  simp [buildSeries]

/-- Claim C3, witness for the amended theorem on a one-row input. -/
theorem series_keeps_every_row_witness :
    (buildSeries parseDigits [⟨"1", "90"⟩]).length = 1 ∧
    (buildSeries parseDigits [⟨"1", "90"⟩]).get ⟨0, by decide⟩ =
      ⟨some 1, "90"⟩ := by
  have h := series_keeps_every_row parseDigits [⟨"1", "90"⟩] 0 (by decide)
  exact ⟨h.1, h.2.trans (by decide)⟩

/-! ## C4 — datetime resolution priority -/

/-- Claim C4, counterexample: with `date`, `time` and `datetime` columns
all present, the Timestamp role resolves to the `(date, time)` pair, not
to the single `datetime` column — the pair branch is tested first, so it
is not a fallback. -/
theorem pair_overrides_datetime_cex :
    resolveDatetime ["date", "time", "datetime"] = some DtRes.pair ∧
    resolveDatetime ["date", "time", "datetime"] ≠ some DtRes.single := by
  refine ⟨by decide, by decide⟩

/-- Claim C4, amended: the priority is reversed — whenever both `date`
and `time` columns are present the role is derived from the pair, even
if a `datetime` column also exists; the single `datetime` column is used
only when the pair is incomplete. -/
theorem datetime_resolution_priority (cols : List String) :
    ("date" ∈ cols → "time" ∈ cols →
      resolveDatetime cols = some DtRes.pair) ∧
    ("datetime" ∈ cols → ("date" ∉ cols ∨ "time" ∉ cols) →
      resolveDatetime cols = some DtRes.single) := by
  constructor
  · intro h1 h2
    simp [resolveDatetime, h1, h2]
  · intro h1 h2
    rcases h2 with h2 | h2 <;> simp [resolveDatetime, h1, h2]

/-- Claim C4, witness for the amended theorem at concrete column
lists. -/
theorem datetime_resolution_priority_witness :
    resolveDatetime ["date", "time"] = some DtRes.pair ∧
    resolveDatetime ["datetime"] = some DtRes.single :=
  ⟨(datetime_resolution_priority ["date", "time"]).1 (by decide) (by decide),
   (datetime_resolution_priority ["datetime"]).2 (by decide)
     (Or.inl (by decide))⟩

/-! ## C5 — correction dose formula -/

/-- Claim C5: for a positive insulin sensitivity factor the correction
dose is `0` when the current glucose is at or below target and
`(current − target) / factor` above target; and
`correction_insulin 220 150 14.13` is within `0.01` of `4.95`. -/
theorem correction_dose_formula :
    (∀ g t cf : ℚ, 0 < cf →
      (g ≤ t → correction_insulin g t cf = 0) ∧
      (t < g → correction_insulin g t cf = (g - t) / cf)) ∧
    |correction_insulin 220 150 (1413 / 100) - 495 / 100| ≤ 1 / 100 := by
  constructor
  · intro g t cf hcf
    constructor
    · intro hle
      unfold correction_insulin
      rw [if_pos hcf.ne']
      exact max_eq_right
        (div_nonpos_iff.mpr (Or.inr ⟨sub_nonpos.mpr hle, hcf.le⟩))
    · intro hlt
      unfold correction_insulin
      rw [if_pos hcf.ne']
      exact max_eq_left (div_nonneg (sub_nonneg.mpr hlt.le) hcf.le)
  · norm_num [correction_insulin, max_def, abs_le]

/-- Claim C5, witness: the formula branch applied at the spec's concrete
inputs `(220, 150, 14.13)`. -/
theorem correction_dose_formula_witness :
    correction_insulin 220 150 (1413 / 100) = 7000 / 1413 := by
  have h := (correction_dose_formula.1 220 150 (1413 / 100)
    (by norm_num)).2 (by norm_num)
  rw [h]; norm_num

/-! ## C6 — zero or negative sensitivity factor -/

/-- Claim C6, counterexample: with a zero or negative sensitivity factor
the code still returns a numeric dose — `0` for factor `0` (the Python
truthiness guard), and even a positive dose `2` for
`(glucose, target, factor) = (100, 200, −50)` — no `InvalidParameter`
error exists anywhere on this path. -/
theorem correction_invalid_isf_cex :
    correction_insulin 200 100 0 = 0 ∧
    correction_insulin 100 200 (-50) = 2 := by
  constructor
  · norm_num [correction_insulin]
  · norm_num [correction_insulin, max_def]

/-- Claim C6, amended: no error is signalled for a non-positive
sensitivity factor.  A factor of `0` yields dose `0` (the `if
correction_factor` truthiness guard); a negative factor is used
unguarded, giving `0` when the glucose is at or above target and the
(positive) quotient `(glucose − target) / factor` when it is below.
(In the UI this input is unreachable: the widget enforces a factor
of at least 10.) -/
theorem correction_invalid_isf_behavior (g t cf : ℚ) :
    (cf = 0 → correction_insulin g t cf = 0) ∧
    (cf < 0 →
      (t ≤ g → correction_insulin g t cf = 0) ∧
      (g < t → correction_insulin g t cf = (g - t) / cf)) := by
  constructor
  · intro h0
    simp [correction_insulin, h0]
  · intro hneg
    constructor
    · intro hle
      unfold correction_insulin
      rw [if_pos hneg.ne]
      exact max_eq_right
        (div_nonpos_iff.mpr (Or.inl ⟨sub_nonneg.mpr hle, hneg.le⟩))
    · intro hlt
      unfold correction_insulin
      rw [if_pos hneg.ne]
      exact max_eq_left
        (div_pos_of_neg_of_neg (sub_neg.mpr hlt) hneg).le

/-- Claim C6, witness for the amended theorem at factor `0` and at
factor `−50` with glucose below target. -/
theorem correction_invalid_isf_behavior_witness :
    correction_insulin 200 100 0 = 0 ∧
    correction_insulin 100 200 (-50) = (100 - 200) / (-50 : ℚ) :=
  ⟨(correction_invalid_isf_behavior 200 100 0).1 rfl,
   ((correction_invalid_isf_behavior 100 200 (-50)).2
     (by norm_num)).2 (by norm_num)⟩

/-! ## C7 — carb bolus formula -/

/-- Claim C7, counterexample: a negative carb ratio does not floor the
bolus to `0` — the Python guard `if carb_ratio` only tests for zero, so
`carb_insulin 60 (−15) = −4`, a negative dose, where the claim demands
`0`. -/
theorem carb_bolus_negative_ratio_cex :
    carb_insulin 60 (-15) = -4 ∧ carb_insulin 60 (-15) ≠ 0 := by
  constructor <;> norm_num [carb_insulin]

/-- Claim C7, amended: the bolus is `0` only when the ratio is exactly
`0`; for every nonzero ratio — negative ones included — it is
`carbs / ratio`; and `carb_insulin 60 15 = 4`. -/
theorem carb_bolus_formula :
    (∀ c r : ℚ,
      (r = 0 → carb_insulin c r = 0) ∧
      (r ≠ 0 → carb_insulin c r = c / r)) ∧
    carb_insulin 60 15 = 4 := by
  constructor
  · intro c r
    constructor
    · intro h0
      simp [carb_insulin, h0]
    · intro hne
      simp [carb_insulin, hne]
  · norm_num [carb_insulin]

/-- Claim C7, witness: the nonzero-ratio branch at the spec's example
`(60, 15)`. -/
theorem carb_bolus_formula_witness :
    carb_insulin 60 15 = (60 : ℚ) / 15 :=
  (carb_bolus_formula.1 60 15).2 (by norm_num)

/-! ## C8 — total dose -/

/-- Claim C8, counterexample: the total dose is not the exact sum of the
two components — the code rounds to one decimal.  At carbs 50, ratio 30
(glucose at target, so no correction) the sum is `5/3` but the displayed
total is `1.7`. -/
theorem total_dose_rounds_cex :
    total_dose 50 30 110 110 50 = 17 / 10 ∧
    carb_insulin 50 30 + correction_insulin 110 110 50 = 5 / 3 ∧
    total_dose 50 30 110 110 50 ≠
      carb_insulin 50 30 + correction_insulin 110 110 50 := by
  refine ⟨?_, ?_, ?_⟩ <;>
    norm_num [total_dose, round1, carb_insulin, correction_insulin,
      max_def, round_eq]

/-- Claim C8, amended: the total dose is the simple sum of the two
components rounded to one decimal place — still uncapped and with no
extra floor, and the rounding moves the value by at most `0.05`. -/
theorem total_dose_is_rounded_sum (c r g t cf : ℚ) :
    total_dose c r g t cf =
      round1 (carb_insulin c r + correction_insulin g t cf) ∧
    |total_dose c r g t cf -
      (carb_insulin c r + correction_insulin g t cf)| ≤ 1 / 20 :=
  ⟨rfl, round1_dist_le _⟩

/-! ## C9 — insulin role is multi-valued -/

/-- Claim C9: the insulin charts produced by a successful ingestion are
exactly the normalized headers containing the substring `"insulin"` —
every such header is collected (multi-valued, not first-match), and
nothing else is. -/
theorem insulin_role_multivalued (headers : List String) (dt : DtRes)
    (gl : Bool) (charts : List String)
    (h : dashboardIngest headers = DashOutcome.ok dt gl charts) :
    ∀ c, c ∈ charts ↔
      c ∈ headers.map normalizeHeader ∧ containsSub c "insulin" = true := by
  intro c
  cases hr : resolveDatetime (headers.map normalizeHeader) with
  | none => simp [dashboardIngest, hr] at h
  | some d =>
      simp [dashboardIngest, hr] at h
      obtain ⟨h1, h2, h3⟩ := h
      rw [← h3]
      simp [insulin_cols, List.mem_filter]

/-- Claim C9, witness: on a concrete upload with two insulin-named
columns, membership of one of them in the chart list matches the
substring characterization. -/
theorem insulin_role_multivalued_witness :
    "basal insulin" ∈ ["basal insulin", "bolus insulin (u)"] ↔
      "basal insulin" ∈
          (["Datetime", "Basal Insulin", "bolus insulin (u)"].map
            normalizeHeader) ∧
        containsSub "basal insulin" "insulin" = true :=
  insulin_role_multivalued ["Datetime", "Basal Insulin", "bolus insulin (u)"]
    DtRes.single false ["basal insulin", "bolus insulin (u)"] (by decide)
    "basal insulin"

/-! ## C10 — save_user -/

/-- Claim C10: saving an existing username returns `False` and leaves
the user store untouched (the early return precedes any write); saving a
fresh username returns `True` and appends exactly one new row. -/
theorem save_user_spec (u p : String) (users : List (String × String)) :
    ((users.map Prod.fst).contains u = true →
      save_user u p users = (false, users)) ∧
    ((users.map Prod.fst).contains u = false →
      save_user u p users = (true, users ++ [(u, p)])) := by
  constructor <;> intro h <;> unfold save_user <;> rw [h] <;> simp

/-- Claim C10, witness: a duplicate signup is rejected without touching
the store, and a fresh signup appends the one new row. -/
theorem save_user_spec_witness :
    save_user "alice" "pw2" [("alice", "pw")] = (false, [("alice", "pw")]) ∧
    save_user "bob" "pw2" [("alice", "pw")] =
      (true, [("alice", "pw"), ("bob", "pw2")]) :=
  ⟨(save_user_spec "alice" "pw2" [("alice", "pw")]).1 (by decide),
   (save_user_spec "bob" "pw2" [("alice", "pw")]).2 (by decide)⟩
